import Mathlib

/-! Tienda Online CLI (`src/index.js`): request dispatch and rendering.

A shallow embedding of `index.js`.  An execution is a trace of observable
events (console calls, `fetch` calls) together with a result that is either a
normal completion or a thrown JavaScript error.  The JavaScript runtime
(`String.prototype.toUpperCase`, `parseFloat`, number formatting, the remote
service behind `fetch`) is a parameter of the embedding.
-/

namespace TiendaCLI

/-! ## JavaScript values -/

/-- JavaScript values that flow through the program: the values produced by
`response.json()` plus `undefined`.  Numbers are kept in an abstract type `ν`;
an object lists its own properties, each key once. -/
inductive JSValue (ν : Type) where
  | undefined : JSValue ν
  | null : JSValue ν
  | bool (b : Bool) : JSValue ν
  | number (x : ν) : JSValue ν
  | string (s : String) : JSValue ν
  | array (xs : List (JSValue ν)) : JSValue ν
  | object (fields : List (String × JSValue ν)) : JSValue ν

/-- Errors that can be thrown while the program runs. -/
inductive JSError where
  /-- An error built by `new Error(message)` (line 22). -/
  | error (message : String)
  /-- The promise returned by `fetch` was rejected (DNS, connection refused, ...). -/
  | sendFailure (message : String)
  /-- The promise returned by `response.json()` was rejected. -/
  | badJson (message : String)
  /-- A TypeError: property `prop` read on `undefined` or `null`. -/
  | readOfNullish (prop : String)
  /-- A TypeError: the value called as `name` is not a function. -/
  | notAFunction (name : String)
  /-- A TypeError: an object could not be converted to a primitive value. -/
  | notPrimitive
  deriving DecidableEq

/-- An outbound HTTP request as handed to `fetch(url, init)`; `body` is the
text of the request body, when there is one. -/
structure Request where
  method : String
  url : String
  headers : List (String × String)
  body : Option String
  deriving DecidableEq

/-- What the remote side answers to one `fetch` call. -/
inductive FetchOutcome (ν : Type) where
  /-- The send itself failed: `fetch` rejects with an error carrying `message`. -/
  | rejected (message : String) : FetchOutcome ν
  /-- A response arrived; `json` is what `response.json()` resolves to, or the
  message of the error it rejects with. -/
  | response (ok : Bool) (status : Nat) (statusText : String)
      (json : Except String (JSValue ν)) : FetchOutcome ν

/-- The part of the JavaScript runtime and of the outside world the program
relies on. -/
structure Runtime (ν : Type) where
  /-- The method `String.prototype.toUpperCase`. -/
  toUpperCase : String → String
  /-- Global `parseFloat` applied to a string. -/
  parseFloat : String → ν
  /-- Number-to-string conversion. -/
  numToString : ν → String
  /-- Truthiness of a number (`false` for `0`, `-0` and `NaN`). -/
  numTruthy : ν → Bool
  /-- Whether a number is finite (`false` for `NaN`, `Infinity` and `-Infinity`). -/
  numFinite : ν → Bool
  /-- The remote service: the outcome of each `fetch` call. -/
  fetch : Request → FetchOutcome ν
  /-- Upper-casing yields the empty string for the empty string only. -/
  upper_eq_empty : ∀ s, toUpperCase s = "" ↔ s = ""
  /-- Upper-casing of the word `help`. -/
  upper_help : toUpperCase "help" = "HELP"
  /-- Upper-casing of the word `--help`. -/
  upper_dashHelp : toUpperCase "--help" = "--HELP"

/-- One argument of a console call. -/
inductive Arg (ν : Type) where
  | text (s : String) : Arg ν
  | strings (xs : List String) : Arg ν
  | value (v : JSValue ν) : Arg ν
  /-- The `message` property of a caught error. -/
  | message (e : JSError) : Arg ν

/-- Observable events of a run. -/
inductive Event (ν : Type) where
  | log (args : List (Arg ν)) : Event ν
  | error (args : List (Arg ν)) : Event ν
  | fetch (req : Request) : Event ν

/-- A computation: the events it emitted and how it ended. -/
structure Eff (ν : Type) (α : Type) where
  trace : List (Event ν)
  result : Except JSError α

namespace Eff

/-- Normal completion without any event. -/
def ret {ν α : Type} (a : α) : Eff ν α := ⟨[], .ok a⟩

/-- Sequencing: a throw in the first part skips the second. -/
def andThen {ν α β : Type} (x : Eff ν α) (f : α → Eff ν β) : Eff ν β :=
  match x.result with
  | .error e => ⟨x.trace, .error e⟩
  | .ok a => ⟨x.trace ++ (f a).trace, (f a).result⟩

/-- A thrown error. -/
def throw {ν α : Type} (e : JSError) : Eff ν α := ⟨[], .error e⟩

/-- The statement `try { x } catch (error) { h error }`. -/
def tryCatch {ν α : Type} (x : Eff ν α) (h : JSError → Eff ν α) : Eff ν α :=
  match x.result with
  | .ok a => ⟨x.trace, .ok a⟩
  | .error e => ⟨x.trace ++ (h e).trace, (h e).result⟩

/-- Lifting of a pure computation that may throw. -/
def ofExcept {ν α : Type} (r : Except JSError α) : Eff ν α := ⟨[], r⟩

end Eff

instance (ν : Type) : Monad (Eff ν) where
  pure := Eff.ret
  bind := Eff.andThen

/-- The call `console.log(...args)`. -/
def consoleLog {ν : Type} (args : List (Arg ν)) : Eff ν Unit := ⟨[.log args], .ok ()⟩

/-- The call `console.error(...args)`. -/
def consoleError {ν : Type} (args : List (Arg ν)) : Eff ν Unit := ⟨[.error args], .ok ()⟩

/-! ## Built-in string and array operations -/

/-- The call `c.repeat(n)` for a one-character string. -/
def repeatChar (c : Char) (n : Nat) : String := ⟨List.replicate n c⟩

/-- The call `s.startsWith(p)`. -/
def startsWith (s p : String) : Bool := p.data.isPrefixOf s.data

/-- Pieces of a character list cut at every occurrence of `sep`. -/
def splitChars (sep : Char) : List Char → List (List Char)
  | [] => [[]]
  | c :: cs =>
    if c = sep then [] :: splitChars sep cs
    else
      match splitChars sep cs with
      | [] => [[c]]
      | p :: ps => (c :: p) :: ps

/-- The call `s.split(sep)` for a one-character separator. -/
def split (s : String) (sep : Char) : List String :=
  (splitChars sep s.data).map String.mk

/-- Array element access `xs[i]`: `undefined` outside `0 .. length-1`. -/
def index {α : Type} (xs : List α) (i : Int) : Option α :=
  if i < 0 then none else xs[i.toNat]?

/-- The call `xs.slice(0, -k)`. -/
def sliceDropLast {α : Type} (xs : List α) (k : Nat) : List α :=
  xs.take (xs.length - k)

/-- The call `xs.join(sep)` on an array of strings. -/
def join : List String → String → String
  | [], _ => ""
  | [x], _ => x
  | x :: y :: rest, sep => x ++ sep ++ join (y :: rest) sep

/-- Template-literal rendering of a value that is a string or `undefined`. -/
def showOpt : Option String → String
  | some s => s
  | none => "undefined"

/-- Truthiness of a value that is a string or `undefined`. -/
def truthyOpt : Option String → Bool
  | some s => s != ""
  | none => false

/-- Truthiness of a JavaScript value. -/
def truthy {ν : Type} (rt : Runtime ν) : JSValue ν → Bool
  | .undefined => false
  | .null => false
  | .bool b => b
  | .number x => rt.numTruthy x
  | .string s => s != ""
  | .array _ => true
  | .object _ => true

/-- The expression `a || b`. -/
def jsOr {ν : Type} (rt : Runtime ν) (a b : JSValue ν) : JSValue ν :=
  if truthy rt a then a else b

/-- A string or `undefined` as a JavaScript value. -/
def ofOpt {ν : Type} : Option String → JSValue ν
  | some s => .string s
  | none => .undefined

/-- Property read `v.key`, for the keys the program reads (`id`, `title`,
`price`, `category`, `description`, `image`, `rating`, `rate`, `count`), none
of which is inherited from a prototype: a TypeError on `undefined` and `null`,
the own property of an object, `undefined` otherwise. -/
def getProp {ν : Type} (v : JSValue ν) (key : String) : Except JSError (JSValue ν) :=
  match v with
  | .undefined => .error (.readOfNullish key)
  | .null => .error (.readOfNullish key)
  | .object fields => .ok ((fields.lookup key).getD .undefined)
  | _ => .ok .undefined

mutual
/-- String conversion of a value inside a template literal.  An object parsed
from JSON converts to `[object Object]` unless it has an own `toString`
property (never callable for parsed JSON), in which case the conversion throws
a TypeError; an array converts like `join(',')`. -/
def toStr {ν : Type} (rt : Runtime ν) : JSValue ν → Except JSError String
  | .undefined => .ok "undefined"
  | .null => .ok "null"
  | .bool b => .ok (if b then "true" else "false")
  | .number x => .ok (rt.numToString x)
  | .string s => .ok s
  | .array xs =>
    match elemStrs rt xs with
    | .ok ss => .ok (join ss ",")
    | .error e => .error e
  | .object fields =>
    if fields.any (fun kv => kv.1 == "toString") then .error .notPrimitive
    else .ok "[object Object]"
/-- String conversion of the elements of an array for `join`: `undefined` and
`null` give the empty string. -/
def elemStrs {ν : Type} (rt : Runtime ν) : List (JSValue ν) → Except JSError (List String)
  | [] => .ok []
  | x :: xs =>
    match (match x with
        | .undefined => Except.ok ""
        | .null => Except.ok ""
        | y => toStr rt y) with
    | .error e => .error e
    | .ok a =>
      match elemStrs rt xs with
      | .error e => .error e
      | .ok r => .ok (a :: r)
end

/-- The hexadecimal digit (lower case) of a number below 16. -/
def hexDigit (n : Nat) : Char :=
  if n < 10 then Char.ofNat (48 + n) else Char.ofNat (87 + n)

/-- The text one character contributes to a JSON string literal: the two-character
escapes for backspace, tab, line feed, form feed, carriage return, the double
quote and the backslash, a `\u00XX` escape for every other character below
U+0020, and the character itself otherwise. -/
def quoteChar (c : Char) : List Char :=
  if c = Char.ofNat 8 then [Char.ofNat 92, 'b']
  else if c = Char.ofNat 9 then [Char.ofNat 92, 't']
  else if c = Char.ofNat 10 then [Char.ofNat 92, 'n']
  else if c = Char.ofNat 12 then [Char.ofNat 92, 'f']
  else if c = Char.ofNat 13 then [Char.ofNat 92, 'r']
  else if c = Char.ofNat 34 then [Char.ofNat 92, Char.ofNat 34]
  else if c = Char.ofNat 92 then [Char.ofNat 92, Char.ofNat 92]
  else if c.toNat < 32 then
    [Char.ofNat 92, 'u', '0', '0', hexDigit (c.toNat / 16), hexDigit (c.toNat % 16)]
  else [c]

/-- The JSON string literal of a string (what `JSON.stringify` yields for it). -/
def quote (s : String) : String :=
  ⟨Char.ofNat 34 :: (s.data.flatMap quoteChar ++ [Char.ofNat 34])⟩

mutual
/-- The call `JSON.stringify(v)`; `none` stands for the result `undefined`.  A
number that is not finite is written `null`, a property whose value is
`undefined` is left out, an `undefined` array element is written `null`, and
the properties of an object are written in the listed order (the program
serialises `newProduct` only, whose keys are not array indices). -/
def stringify {ν : Type} (rt : Runtime ν) : JSValue ν → Option String
  | .undefined => none
  | .null => some "null"
  | .bool b => some (if b then "true" else "false")
  | .number x => some (if rt.numFinite x then rt.numToString x else "null")
  | .string s => some (quote s)
  | .array xs => some ("[" ++ join (stringifyElems rt xs) "," ++ "]")
  | .object fields => some ("\x7b" ++ join (stringifyMembers rt fields) "," ++ "\x7d")
/-- The texts of the elements of an array. -/
def stringifyElems {ν : Type} (rt : Runtime ν) : List (JSValue ν) → List String
  | [] => []
  | x :: xs =>
    (match stringify rt x with
      | some t => t
      | none => "null") :: stringifyElems rt xs
/-- The texts `"key":value` of the properties of an object. -/
def stringifyMembers {ν : Type} (rt : Runtime ν) : List (String × JSValue ν) → List String
  | [] => []
  | (k, v) :: rest =>
    match stringify rt v with
    | some t => (quote k ++ ":" ++ t) :: stringifyMembers rt rest
    | none => stringifyMembers rt rest
end

/-- Template-literal interpolation of `v.key`. -/
def showProp {ν : Type} (rt : Runtime ν) (v : JSValue ν) (key : String) : Eff ν String :=
  Eff.ofExcept (getProp v key >>= toStr rt)

/-- Template-literal interpolation of `v.key1.key2`. -/
def showProp2 {ν : Type} (rt : Runtime ν) (v : JSValue ν) (key1 key2 : String) :
    Eff ν String :=
  Eff.ofExcept (getProp v key1 >>= fun w => getProp w key2 >>= toStr rt)

/-! ## The program -/

/-- The constant `API_BASE_URL` (line 7). -/
def API_BASE_URL : String := "https://fakestoreapi.com"

/-- Function `makeApiRequest(url, options)` (lines 9-31); `method` and `body`
are the properties of `options` (absent when `none`).  The request records the
method `fetch` uses, which is `GET` when `options.method` is absent. -/
def makeApiRequest {ν : Type} (rt : Runtime ν) (url : String) (method : Option String)
    (body : Option String) : Eff ν (JSValue ν) :=
  Eff.tryCatch
    (do
      consoleLog [.text ("🔄 Realizando petición: " ++ method.getD "GET" ++ " " ++ url)]
      let req : Request :=
        ⟨method.getD "GET", url, [("Content-Type", "application/json")], body⟩
      (⟨[.fetch req], .ok ()⟩ : Eff ν Unit)
      match rt.fetch req with
      | .rejected msg => Eff.throw (.sendFailure msg)
      | .response ok status statusText json =>
        if !ok then
          Eff.throw (.error ("Error HTTP: " ++ toString status ++ " - " ++ statusText))
        else
          match json with
          | .error msg => Eff.throw (.badJson msg)
          | .ok data => pure data)
    (fun error => do
      consoleError [.text "❌ Error en la petición:", .message error]
      Eff.throw error)

/-- The callback of `products.forEach` (lines 40-47): the block of one product. -/
def productBlock {ν : Type} (rt : Runtime ν) (product : JSValue ν) : Eff ν Unit := do
  let id ← showProp rt product "id"
  consoleLog [.text ("\n🆔 ID: " ++ id)]
  let title ← showProp rt product "title"
  consoleLog [.text ("📝 Título: " ++ title)]
  let price ← showProp rt product "price"
  consoleLog [.text ("💰 Precio: $" ++ price)]
  let category ← showProp rt product "category"
  consoleLog [.text ("🏷️  Categoría: " ++ category)]
  let rate ← showProp2 rt product "rating" "rate"
  let count ← showProp2 rt product "rating" "count"
  consoleLog [.text ("⭐ Rating: " ++ rate ++ " (" ++ count ++ " reseñas)")]
  consoleLog [.text (repeatChar '-' 40)]

/-- The call `xs.forEach(f)` on an array. -/
def forEach {ν α : Type} (f : α → Eff ν Unit) : List α → Eff ν Unit
  | [] => pure ()
  | x :: xs => do
    f x
    forEach f xs

/-- Function `getAllProducts()` (lines 33-53). -/
def getAllProducts {ν : Type} (rt : Runtime ν) : Eff ν Unit :=
  Eff.tryCatch
    (do
      let products ← makeApiRequest rt (API_BASE_URL ++ "/products") none none
      consoleLog [.text "\n📦 LISTA COMPLETA DE PRODUCTOS"]
      consoleLog [.text (repeatChar '=' 50)]
      match products with
      | .array xs => do
        forEach (productBlock rt) xs
        consoleLog [.text ("\n✅ Total de productos encontrados: " ++ toString xs.length)]
      | .undefined => Eff.throw (.readOfNullish "forEach")
      | .null => Eff.throw (.readOfNullish "forEach")
      | _ => Eff.throw (.notAFunction "products.forEach"))
    (fun error => consoleError [.text "❌ Error al obtener los productos:", .message error])

/-- Function `getProductById(productId)` (lines 55-73); `productId` is a string
or `undefined`. -/
def getProductById {ν : Type} (rt : Runtime ν) (productId : Option String) : Eff ν Unit :=
  Eff.tryCatch
    (do
      let product ← makeApiRequest rt (API_BASE_URL ++ "/products/" ++ showOpt productId) none none
      consoleLog [.text "\n📦 DETALLES DEL PRODUCTO"]
      consoleLog [.text (repeatChar '=' 50)]
      let id ← showProp rt product "id"
      consoleLog [.text ("🆔 ID: " ++ id)]
      let title ← showProp rt product "title"
      consoleLog [.text ("📝 Título: " ++ title)]
      let price ← showProp rt product "price"
      consoleLog [.text ("💰 Precio: $" ++ price)]
      let category ← showProp rt product "category"
      consoleLog [.text ("🏷️  Categoría: " ++ category)]
      let description ← showProp rt product "description"
      consoleLog [.text ("📖 Descripción: " ++ description)]
      let image ← showProp rt product "image"
      consoleLog [.text ("🖼️  Imagen: " ++ image)]
      let rate ← showProp2 rt product "rating" "rate"
      let count ← showProp2 rt product "rating" "count"
      consoleLog [.text ("⭐ Rating: " ++ rate ++ " (" ++ count ++ " reseñas)")]
      consoleLog [.text "\n✅ Producto encontrado exitosamente"])
    (fun error =>
      consoleError
        [.text ("❌ Error al obtener el producto con ID " ++ showOpt productId ++ ":"),
         .message error])

/-- Template-literal interpolation of `v.key || fallback`. -/
def showPropOr {ν : Type} (rt : Runtime ν) (v : JSValue ν) (key : String)
    (fallback : JSValue ν) : Eff ν String :=
  Eff.ofExcept (getProp v key >>= fun w => toStr rt (jsOr rt w fallback))

/-- Function `createProduct(title, price, category)` (lines 75-100); each
argument is a string or `undefined`. -/
def createProduct {ν : Type} (rt : Runtime ν) (title price category : Option String) :
    Eff ν Unit :=
  Eff.tryCatch
    (do
      let newProduct : JSValue ν := .object
        [("title", ofOpt title),
         ("price", .number (rt.parseFloat (showOpt price))),
         ("description",
            .string ("Producto " ++ showOpt title ++ " de la categoría " ++ showOpt category)),
         ("category", ofOpt category)]
      let createdProduct ←
        makeApiRequest rt (API_BASE_URL ++ "/products") (some "POST")
          (stringify rt newProduct)
      consoleLog [.text "\n🎉 PRODUCTO CREADO EXITOSAMENTE"]
      consoleLog [.text (repeatChar '=' 50)]
      let id ← showProp rt createdProduct "id"
      consoleLog [.text ("🆔 ID: " ++ id)]
      let shownTitle ← showPropOr rt createdProduct "title" (ofOpt title)
      consoleLog [.text ("📝 Título: " ++ shownTitle)]
      let shownPrice ← showPropOr rt createdProduct "price" (ofOpt price)
      consoleLog [.text ("💰 Precio: $" ++ shownPrice)]
      let shownCategory ← showPropOr rt createdProduct "category" (ofOpt category)
      consoleLog [.text ("🏷️  Categoría: " ++ shownCategory)]
      consoleLog [.text "\n✅ El producto ha sido agregado al catálogo"])
    (fun error => consoleError [.text "❌ Error al crear el producto:", .message error])

/-- Function `deleteProduct(productId)` (lines 102-117); `productId` is a
string or `undefined`. -/
def deleteProduct {ν : Type} (rt : Runtime ν) (productId : Option String) : Eff ν Unit :=
  Eff.tryCatch
    (do
      let deletedProduct ←
        makeApiRequest rt (API_BASE_URL ++ "/products/" ++ showOpt productId) (some "DELETE")
          none
      consoleLog [.text "\n🗑️  PRODUCTO ELIMINADO"]
      consoleLog [.text (repeatChar '=' 50)]
      consoleLog [.text ("🆔 ID eliminado: " ++ showOpt productId)]
      consoleLog [.text "📋 Respuesta del servidor:", .value deletedProduct]
      consoleLog [.text "\n✅ El producto ha sido eliminado del catálogo"])
    (fun error =>
      consoleError
        [.text ("❌ Error al eliminar el producto con ID " ++ showOpt productId ++ ":"),
         .message error])

/-- The lines printed by `showHelp()` (lines 119-142). -/
def helpLines : List String :=
  ["\n🚀 TIENDA ONLINE CLI - AYUDA",
   repeatChar '=' 50,
   "📖 Comandos disponibles:",
   "",
   "📦 Obtener todos los productos:",
   "   npm run start GET products",
   "",
   "🔍 Obtener un producto específico:",
   "   npm run start GET products/<productId>",
   "   Ejemplo: npm run start GET products/15",
   "",
   "➕ Crear un nuevo producto:",
   "   npm run start POST products <title> <price> <category>",
   "   Ejemplo: npm run start POST products T-Shirt-Rex 300 remeras",
   "",
   "🗑️  Eliminar un producto:",
   "   npm run start DELETE products/<productId>",
   "   Ejemplo: npm run start DELETE products/7",
   "",
   "❓ Mostrar esta ayuda:",
   "   npm run start help",
   "\n" ++ repeatChar '=' 50]

/-- Function `showHelp()` (lines 119-142). -/
def showHelp {ν : Type} : Eff ν Unit :=
  ⟨helpLines.map (fun l => .log [.text l]), .ok ()⟩

/-- The method call `s.toUpperCase()` on a string or `undefined`. -/
def callToUpperCase {ν : Type} (rt : Runtime ν) : Option String → Eff ν String
  | some s => pure (rt.toUpperCase s)
  | none => Eff.throw (.readOfNullish "toUpperCase")

/-- The method call `s.startsWith(p)` on a string or `undefined`. -/
def callStartsWith {ν : Type} (s : Option String) (p : String) : Eff ν Bool :=
  match s with
  | some s => pure (startsWith s p)
  | none => Eff.throw (.readOfNullish "startsWith")

/-- The method call `s.split(sep)` on a string or `undefined`. -/
def callSplit {ν : Type} (s : Option String) (sep : Char) : Eff ν (List String) :=
  match s with
  | some s => pure (split s sep)
  | none => Eff.throw (.readOfNullish "split")

/-- The call `xs.join(sep)` on an array of strings and `undefined`s; an
`undefined` element contributes the empty string. -/
def joinOpt (xs : List (Option String)) (sep : String) : String :=
  join (xs.map (fun x => x.getD "")) sep

/-- Function `processCommand()` (lines 145-242); `args` is
`process.argv.slice(2)`. -/
def processCommand {ν : Type} (rt : Runtime ν) (args : List String) : Eff ν Unit :=
  if args.length = 0 ∨ args[0]? = some "help" ∨ args[0]? = some "--help" then
    showHelp
  else do
    let method := args[0]?
    let resource := args[1]?
    let params := args.drop 2
    consoleLog [.text "\n🎯 EJECUTANDO COMANDO"]
    consoleLog [.text (repeatChar '=' 30)]
    consoleLog [.text ("📝 Método: " ++ showOpt method)]
    consoleLog [.text ("📋 Recurso: " ++ showOpt resource)]
    consoleLog [.text "📊 Parámetros:", .strings params]
    consoleLog [.text (repeatChar '=' 30)]
    if !truthyOpt method || !truthyOpt resource then do
      consoleError [.text "❌ Error: Debes especificar un método y recurso"]
      showHelp
    else do
      let upper ← callToUpperCase rt method
      if upper = "GET" then
        if resource = some "products" then
          if params.length = 0 then
            getAllProducts rt
          else if params.length = 1 then do
            let productId := index params 0
            getProductById rt productId
          else do
            consoleError [.text "❌ Error: Parámetros incorrectos para GET products"]
            showHelp
        else do
          let isPath ← callStartsWith resource "products/"
          if isPath then do
            let parts ← callSplit resource '/'
            let productId := index parts 1
            if truthyOpt productId then
              getProductById rt productId
            else do
              consoleError [.text "❌ Error: Debes especificar el ID del producto"]
              showHelp
          else do
            consoleError
              [.text "❌ Error: Recurso no válido. Use \"products\" o \"products/<id>\""]
            showHelp
      else if upper = "POST" then
        if resource = some "products" then
          if params.length ≥ 3 then do
            let title := index params 0
            let price := index params 1
            let category := index params 2
            let extraParams := params.drop 3
            let fullTitle :=
              if extraParams.length > 0 then
                some (joinOpt (title :: (sliceDropLast extraParams 2).map some) " ")
              else title
            let actualPrice :=
              if extraParams.length > 0 then
                index extraParams ((extraParams.length : Int) - 2)
              else price
            let actualCategory :=
              if extraParams.length > 0 then
                index extraParams ((extraParams.length : Int) - 1)
              else category
            createProduct rt fullTitle actualPrice actualCategory
          else do
            consoleError [.text "❌ Error: Debes proporcionar título, precio y categoría"]
            consoleLog
              [.text "💡 Ejemplo: npm run start POST products \"Mi Producto\" 29.99 electronics"]
            showHelp
        else do
          consoleError [.text "❌ Error: Recurso no válido. Use \"products\""]
          showHelp
      else if upper = "DELETE" then do
        let isPath ← callStartsWith resource "products/"
        if isPath then do
          let parts ← callSplit resource '/'
          let productId := index parts 1
          if truthyOpt productId then
            deleteProduct rt productId
          else do
            consoleError [.text "❌ Error: Debes especificar el ID del producto a eliminar"]
            showHelp
        else do
          consoleError [.text "❌ Error: Formato incorrecto. Use DELETE products/<id>"]
          showHelp
      else do
        consoleError [.text ("❌ Error: Método \"" ++ showOpt method ++ "\" no válido")]
        consoleLog [.text "💡 Métodos disponibles: GET, POST, DELETE"]
        showHelp

/-- The three lines `main` prints first (lines 245-247). -/
def welcome {ν : Type} : List (Event ν) :=
  [.log [.text "\n🌟 BIENVENIDO A TIENDA ONLINE CLI"],
   .log [.text "🛍️  Sistema de Gestión de Productos"],
   .log [.text "🔗 Conectado a FakeStore API"]]

/-- The closing message (line 256). -/
def closing {ν : Type} : Event ν :=
  .log [.text "\n👋 ¡Gracias por usar Tienda Online CLI!"]

/-- A finished run of the process: everything it emitted and its exit status. -/
structure Run (ν : Type) where
  trace : List (Event ν)
  exitCode : Nat

/-- Function `main()` (lines 244-257) and the end of the process; `args` is
`process.argv.slice(2)`. -/
def main {ν : Type} (rt : Runtime ν) (args : List String) : Run ν :=
  let run := processCommand rt args
  match run.result with
  | .error error =>
    ⟨welcome ++ run.trace ++
      [.error [.text "\n💥 Error inesperado en la aplicación:", .message error]], 1⟩
  | .ok _ => ⟨welcome ++ run.trace ++ [closing], 0⟩

/-! ## Observations on traces -/

/-- The requests handed to `fetch` during a run, in order. -/
def requestsOf {ν : Type} : List (Event ν) → List (Request)
  | [] => []
  | .fetch req :: es => req :: requestsOf es
  | .log _ :: es => requestsOf es
  | .error _ :: es => requestsOf es

/-- The six lines `processCommand` prints before dispatching (lines 155-160). -/
def commandHeader {ν : Type} (method resource : Option String) (params : List String) :
    List (Event ν) :=
  [.log [.text "\n🎯 EJECUTANDO COMANDO"],
   .log [.text (repeatChar '=' 30)],
   .log [.text ("📝 Método: " ++ showOpt method)],
   .log [.text ("📋 Recurso: " ++ showOpt resource)],
   .log [.text "📊 Parámetros:", .strings params],
   .log [.text (repeatChar '=' 30)]]

/-- A usage error: no request is issued, an error line is printed, and the
trace ends with the help text. -/
def UsageError {ν : Type} (t : List (Event ν)) : Prop :=
  requestsOf t = [] ∧
    ∃ pre msg post, t = pre ++ Event.error [Arg.text msg] :: (post ++ (showHelp : Eff ν Unit).trace)

/-- The request `GET url` as `makeApiRequest(url)` issues it. -/
def getRequest (url : String) : Request :=
  ⟨"GET", url, [("Content-Type", "application/json")], none⟩

/-- The request `DELETE url` as `makeApiRequest(url, {method: 'DELETE'})` issues it. -/
def deleteRequest (url : String) : Request :=
  ⟨"DELETE", url, [("Content-Type", "application/json")], none⟩

/-- The ASCII part of `toUpperCase`: `a`..`z` go to `A`..`Z`, every other
character is kept. -/
def asciiUpper (s : String) : String := ⟨s.data.map Char.toUpper⟩

/-- Reading of a plain digit string as a number; `none` (standing for `NaN`)
for every other string. -/
def parseDigits (s : String) : Option Nat :=
  if s.data ≠ [] ∧ s.data.all Char.isDigit = true then
    some (s.data.foldl (fun n c => 10 * n + (c.toNat - 48)) 0)
  else none

/-- A small concrete runtime for examples: numbers are natural numbers with
`none` standing for `NaN`, `toUpperCase` is its ASCII part, `parseFloat` reads
plain digit strings, and the remote service is given by `world`. -/
def sampleRuntime (world : Request → FetchOutcome (Option Nat)) :
    Runtime (Option Nat) :=
  ⟨asciiUpper,
   parseDigits,
   fun x =>
    match x with
    | some n => toString n
    | none => "NaN",
   fun x =>
    match x with
    | some n => n != 0
    | none => false,
   fun x => x.isSome,
   world,
   fun s => by cases s with | mk data => cases data <;> simp [asciiUpper, String.ext_iff],
   by decide,
   by decide⟩

/-- A remote service that cannot be reached. -/
def offline : Request → FetchOutcome (Option Nat) :=
  fun _ => .rejected "fetch failed"

/-- The part of a resource after its first nine characters (`products/`) up
to the next `/`, or to the end when there is none. -/
def idSegment (resource : String) : String :=
  ⟨(resource.data.drop 9).takeWhile (fun c => c != '/')⟩

/-! ## Rendering of the product list -/

/-- Whether a value is `undefined` or `null`. -/
def nullish {ν : Type} : JSValue ν → Bool
  | .undefined => true
  | .null => true
  | _ => false

/-- The value of `v.key` when the read does not throw (`undefined` otherwise). -/
def field {ν : Type} (v : JSValue ν) (key : String) : JSValue ν :=
  match getProp v key with
  | .ok w => w
  | .error _ => .undefined

/-- Whether the string conversion of a value succeeds. -/
def printable {ν : Type} (rt : Runtime ν) (v : JSValue ν) : Bool :=
  match toStr rt v with
  | .ok _ => true
  | .error _ => false

/-- The string a value converts to (empty when the conversion throws). -/
def display {ν : Type} (rt : Runtime ν) (v : JSValue ν) : String :=
  match toStr rt v with
  | .ok s => s
  | .error _ => ""

/-- An element of the product list that `getAllProducts` can render: it is
neither `undefined` nor `null`, its `rating` is neither missing nor `null`,
and the six values shown convert to strings. -/
def renderable {ν : Type} (rt : Runtime ν) (product : JSValue ν) : Bool :=
  !nullish product && !nullish (field product "rating") &&
    printable rt (field product "id") && printable rt (field product "title") &&
    printable rt (field product "price") && printable rt (field product "category") &&
    printable rt (field (field product "rating") "rate") &&
    printable rt (field (field product "rating") "count")

/-- The six lines of the block of one renderable product. -/
def blockLines {ν : Type} (rt : Runtime ν) (product : JSValue ν) : List (Event ν) :=
  [.log [.text ("\n🆔 ID: " ++ display rt (field product "id"))],
   .log [.text ("📝 Título: " ++ display rt (field product "title"))],
   .log [.text ("💰 Precio: $" ++ display rt (field product "price"))],
   .log [.text ("🏷️  Categoría: " ++ display rt (field product "category"))],
   .log [.text ("⭐ Rating: " ++ display rt (field (field product "rating") "rate") ++ " (" ++
      display rt (field (field product "rating") "count") ++ " reseñas)")],
   .log [.text (repeatChar '-' 40)]]

/-- What `getAllProducts` emits up to and including the list header. -/
def listHeader {ν : Type} : List (Event ν) :=
  [.log [.text ("🔄 Realizando petición: GET " ++ (API_BASE_URL ++ "/products"))],
   .fetch (getRequest (API_BASE_URL ++ "/products")),
   .log [.text "\n📦 LISTA COMPLETA DE PRODUCTOS"],
   .log [.text (repeatChar '=' 50)]]

/-- The total line for a list of `n` products. -/
def totalLine {ν : Type} (n : Nat) : Event ν :=
  .log [.text ("\n✅ Total de productos encontrados: " ++ toString n)]

/-- A remote service answering every request with a list of two products, the
first of which has no `rating`. -/
def listWorld : Request → FetchOutcome (Option Nat) :=
  fun _ => .response true 200 "OK" (.ok (.array
    [.object [("id", .number (some 1)), ("title", .string "Mochila"),
        ("price", .number (some 110)), ("category", .string "bolsos")],
     .object [("id", .number (some 2)), ("title", .string "Remera"),
        ("price", .number (some 22)), ("category", .string "ropa"),
        ("rating", .object [("rate", .number (some 4)), ("count", .number (some 259))])]]))

/-- A list of one complete product. -/
def goodList : List (JSValue (Option Nat)) :=
  [.object [("id", .number (some 2)), ("title", .string "Remera"),
      ("price", .number (some 22)), ("category", .string "ropa"),
      ("rating", .object [("rate", .number (some 4)), ("count", .number (some 259))])]]

/-- A remote service answering every request with `goodList`. -/
def goodWorld : Request → FetchOutcome (Option Nat) :=
  fun _ => .response true 200 "OK" (.ok (.array goodList))

/-! ## Basic facts about computations -/

@[simp]
theorem bind_eq_andThen {ν α β : Type} (x : Eff ν α) (f : α → Eff ν β) :
    x >>= f = Eff.andThen x f := rfl

@[simp]
theorem pure_eq_ret {ν α : Type} (a : α) : (pure a : Eff ν α) = Eff.ret a := rfl

@[simp]
theorem andThen_ret {ν α β : Type} (a : α) (f : α → Eff ν β) :
    Eff.andThen (Eff.ret a) f = f a := rfl

@[simp]
theorem andThen_throw {ν α β : Type} (e : JSError) (f : α → Eff ν β) :
    Eff.andThen (Eff.throw e : Eff ν α) f = Eff.throw e := rfl

@[simp]
theorem andThen_consoleLog {ν β : Type} (args : List (Arg ν)) (f : Unit → Eff ν β) :
    Eff.andThen (consoleLog args) f = ⟨.log args :: (f ()).trace, (f ()).result⟩ := rfl

@[simp]
theorem andThen_consoleError {ν β : Type} (args : List (Arg ν)) (f : Unit → Eff ν β) :
    Eff.andThen (consoleError args) f = ⟨.error args :: (f ()).trace, (f ()).result⟩ := rfl

@[simp]
theorem requestsOf_append {ν : Type} (s t : List (Event ν)) :
    requestsOf (s ++ t) = requestsOf s ++ requestsOf t := by
  induction s with
  | nil => rfl
  | cons e s ih => cases e <;> simp [requestsOf, ih]

/-! ## Requests issued by the handlers -/

theorem requestsOf_makeApiRequest {ν : Type} (rt : Runtime ν) (url : String)
    (method : Option String) (body : Option String) :
    requestsOf (makeApiRequest rt url method body).trace =
      [⟨method.getD "GET", url, [("Content-Type", "application/json")], body⟩] := by
  unfold makeApiRequest
  cases h : rt.fetch ⟨method.getD "GET", url, [("Content-Type", "application/json")], body⟩ with
  | rejected msg => simp [Eff.tryCatch, Eff.andThen, h, Eff.throw, requestsOf, consoleError]
  | response ok status statusText json =>
    cases ok <;> cases json <;>
      simp [Eff.tryCatch, Eff.andThen, h, Eff.throw, requestsOf, consoleError, Eff.ret]

theorem tryCatch_result {ν : Type} (x : Eff ν Unit) (h : JSError → Eff ν Unit)
    (hh : ∀ e, (h e).result = .ok ()) : (Eff.tryCatch x h).result = .ok () := by
  unfold Eff.tryCatch
  cases hx : x.result with
  | ok a => rfl
  | error e => simp [hh]

theorem requestsOf_andThen_nil {ν α β : Type} (x : Eff ν α) (f : α → Eff ν β)
    (hx : requestsOf x.trace = []) (hf : ∀ a, requestsOf (f a).trace = []) :
    requestsOf (Eff.andThen x f).trace = [] := by
  unfold Eff.andThen
  cases x.result with
  | error e => simpa using hx
  | ok a => simp [hx, hf a]

theorem requestsOf_handler {ν α : Type} (x : Eff ν α) (f : α → Eff ν Unit)
    (h : JSError → Eff ν Unit) (hf : ∀ a, requestsOf (f a).trace = [])
    (hh : ∀ e, requestsOf (h e).trace = []) :
    requestsOf (Eff.tryCatch (Eff.andThen x f) h).trace = requestsOf x.trace := by
  unfold Eff.tryCatch Eff.andThen
  cases x.result with
  | error e => simp [hh]
  | ok a =>
    cases hr : (f a).result with
    | ok u => simp [hr, hf a]
    | error e => simp [hr, hf a, hh e]

theorem requestsOf_forEach {ν α : Type} (f : α → Eff ν Unit)
    (hf : ∀ a, requestsOf (f a).trace = []) (xs : List α) :
    requestsOf (forEach f xs).trace = [] := by
  induction xs with
  | nil => rfl
  | cons x xs ih =>
    simp only [forEach, bind_eq_andThen]
    exact requestsOf_andThen_nil _ _ (hf x) (fun _ => ih)

theorem requestsOf_productBlock {ν : Type} (rt : Runtime ν) (product : JSValue ν) :
    requestsOf (productBlock rt product).trace = [] := by
  unfold productBlock
  simp only [bind_eq_andThen]
  repeat (first | rfl | apply requestsOf_andThen_nil | intro _)

theorem requestsOf_getAllProducts {ν : Type} (rt : Runtime ν) :
    requestsOf (getAllProducts rt).trace = [getRequest (API_BASE_URL ++ "/products")] := by
  unfold getAllProducts
  simp only [bind_eq_andThen]
  rw [requestsOf_handler, requestsOf_makeApiRequest]
  · rfl
  · intro products
    cases products <;>
      first
      | rfl
      | (simp only [andThen_consoleLog, requestsOf]
         apply requestsOf_andThen_nil
         · exact requestsOf_forEach _ (requestsOf_productBlock rt) _
         · intro _; rfl)
  · intro e; rfl

theorem requestsOf_getProductById {ν : Type} (rt : Runtime ν) (productId : Option String) :
    requestsOf (getProductById rt productId).trace =
      [getRequest (API_BASE_URL ++ "/products/" ++ showOpt productId)] := by
  unfold getProductById
  simp only [bind_eq_andThen]
  rw [requestsOf_handler, requestsOf_makeApiRequest]
  · rfl
  · intro product
    repeat (first | rfl | apply requestsOf_andThen_nil | intro _)
  · intro e; rfl

theorem requestsOf_createProduct {ν : Type} (rt : Runtime ν) (title price category : Option String) :
    requestsOf (createProduct rt title price category).trace =
      [⟨"POST", API_BASE_URL ++ "/products", [("Content-Type", "application/json")],
        stringify rt (.object
          [("title", ofOpt title),
           ("price", .number (rt.parseFloat (showOpt price))),
           ("description",
              .string ("Producto " ++ showOpt title ++ " de la categoría " ++ showOpt category)),
           ("category", ofOpt category)])⟩] := by
  unfold createProduct
  simp only [bind_eq_andThen]
  rw [requestsOf_handler, requestsOf_makeApiRequest]
  · rfl
  · intro product
    repeat (first | rfl | apply requestsOf_andThen_nil | intro _)
  · intro e; rfl

theorem stringify_newProduct {ν : Type} (rt : Runtime ν) (t p c : String) :
    stringify rt (.object
        [("title", ofOpt (some t)),
         ("price", .number (rt.parseFloat (showOpt (some p)))),
         ("description",
            .string ("Producto " ++ showOpt (some t) ++ " de la categoría " ++
              showOpt (some c))),
         ("category", ofOpt (some c))]) =
      some ("\x7b" ++ join
        [quote "title" ++ ":" ++ quote t,
         quote "price" ++ ":" ++
           (if rt.numFinite (rt.parseFloat p) then rt.numToString (rt.parseFloat p)
            else "null"),
         quote "description" ++ ":" ++ quote ("Producto " ++ t ++ " de la categoría " ++ c),
         quote "category" ++ ":" ++ quote c] "," ++ "\x7d") := by
  simp [stringify, stringifyMembers, ofOpt, showOpt]

theorem newProduct_text (t price d c : String) :
    "\x7b" ++ join
        [quote "title" ++ ":" ++ t, quote "price" ++ ":" ++ price,
         quote "description" ++ ":" ++ d, quote "category" ++ ":" ++ c] "," ++ "\x7d" =
      "\x7b\"title\":" ++ t ++ ",\"price\":" ++ price ++ ",\"description\":" ++ d ++
        ",\"category\":" ++ c ++ "\x7d" := by
  have e1 : "\x7b\"title\":" = "\x7b" ++ (quote "title" ++ ":") := by decide
  have e2 : ",\"price\":" = "," ++ (quote "price" ++ ":") := by decide
  have e3 : ",\"description\":" = "," ++ (quote "description" ++ ":") := by decide
  have e4 : ",\"category\":" = "," ++ (quote "category" ++ ":") := by decide
  rw [e1, e2, e3, e4]
  simp only [join, String.append_assoc]

theorem requestsOf_deleteProduct {ν : Type} (rt : Runtime ν) (productId : Option String) :
    requestsOf (deleteProduct rt productId).trace =
      [deleteRequest (API_BASE_URL ++ "/products/" ++ showOpt productId)] := by
  unfold deleteProduct
  simp only [bind_eq_andThen]
  rw [requestsOf_handler, requestsOf_makeApiRequest]
  · rfl
  · intro product
    repeat (first | rfl | apply requestsOf_andThen_nil | intro _)
  · intro e; rfl

theorem requestsOf_showHelp {ν : Type} : requestsOf (showHelp : Eff ν Unit).trace = [] := by
  rfl

/-! ## Dispatch lemmas -/

theorem method_ne {ν : Type} (rt : Runtime ν) (m u : String) (hup : rt.toUpperCase m = u)
    (h0 : u ≠ "") (h1 : u ≠ "HELP") (h2 : u ≠ "--HELP") :
    m ≠ "" ∧ m ≠ "help" ∧ m ≠ "--help" := by
  refine ⟨?_, ?_, ?_⟩
  · intro h; subst h; exact h0 (hup ▸ (rt.upper_eq_empty "").2 rfl)
  · intro h; subst h; exact h1 (hup ▸ rt.upper_help)
  · intro h; subst h; exact h2 (hup ▸ rt.upper_dashHelp)

theorem usageError_intro {ν : Type} (pre : List (Event ν)) (msg : String)
    (hpre : requestsOf pre = []) :
    UsageError (pre ++ .error [.text msg] :: (showHelp : Eff ν Unit).trace) := by
  refine ⟨?_, pre, msg, [], by simp⟩
  simp [hpre, requestsOf, requestsOf_showHelp]

theorem usageError_intro_hint {ν : Type} (pre : List (Event ν)) (msg : String)
    (hint : List (Arg ν)) (hpre : requestsOf pre = []) :
    UsageError (pre ++ .error [.text msg] :: .log hint :: (showHelp : Eff ν Unit).trace) := by
  refine ⟨?_, pre, msg, [.log hint], by simp⟩
  simp [hpre, requestsOf, requestsOf_showHelp]

theorem usageError_log_cons {ν : Type} (a : List (Arg ν)) (t : List (Event ν)) :
    UsageError (.log a :: t) ↔ UsageError t := by
  constructor
  · rintro ⟨hreq, pre, msg, post, h⟩
    refine ⟨by simpa [requestsOf] using hreq, ?_⟩
    cases pre with
    | nil => simp at h
    | cons e pre =>
      simp only [List.cons_append, List.cons.injEq] at h
      exact ⟨pre, msg, post, h.2⟩
  · rintro ⟨hreq, pre, msg, post, h⟩
    exact ⟨by simpa [requestsOf] using hreq, .log a :: pre, msg, post, by simp [h]⟩

theorem usageError_header {ν : Type} (method resource : Option String) (params : List String)
    (t : List (Event ν)) :
    UsageError (commandHeader method resource params ++ t) ↔ UsageError t := by
  simp [commandHeader, usageError_log_cons]

theorem not_usageError_showHelp {ν : Type} : ¬ UsageError (showHelp : Eff ν Unit).trace := by
  rintro ⟨_, pre, msg, post, h⟩
  have hmem : Event.error [Arg.text msg] ∈ (showHelp : Eff ν Unit).trace := by
    rw [h]; simp
  simp [showHelp] at hmem

theorem splitChars_append_sep (sep : Char) (l rest : List Char) (h : sep ∉ l) :
    splitChars sep (l ++ sep :: rest) = l :: splitChars sep rest := by
  induction l with
  | nil => simp [splitChars]
  | cons c l ih =>
    have hc : c ≠ sep := fun hc => h (by simp [hc])
    have hl : sep ∉ l := fun hl => h (by simp [hl])
    simp [splitChars, hc, ih hl]

theorem splitChars_head (l : List Char) :
    ∃ tl, splitChars '/' l = l.takeWhile (fun c => c != '/') :: tl := by
  induction l with
  | nil => exact ⟨[], by simp [splitChars]⟩
  | cons c l ih =>
    obtain ⟨tl, htl⟩ := ih
    by_cases hc : c = '/'
    · exact ⟨splitChars '/' l, by simp [splitChars, hc]⟩
    · exact ⟨tl, by simp [splitChars, hc, htl]⟩

theorem index_split (r : String) (h : startsWith r "products/" = true) :
    index (split r '/') 1 = some (idSegment r) := by
  unfold startsWith at h
  rw [ List.isPrefixOf_iff_prefix] at h
  obtain ⟨tail, htail⟩ := h
  obtain ⟨tl, htl⟩ := splitChars_head tail
  have h1 : splitChars '/' r.data = "products".data :: splitChars '/' tail := by
    rw [← htail]
    exact splitChars_append_sep '/' "products".data tail (by decide)
  have h2 : (r.data.drop 9) = tail := by
    rw [← htail]; rfl
  simp [split, index, h1, htl, idSegment, h2]

theorem path_ne (r : String) (h : startsWith r "products/" = true) :
    r ≠ "" ∧ r ≠ "products" := by
  unfold startsWith at h
  rw [ List.isPrefixOf_iff_prefix] at h
  obtain ⟨tail, htail⟩ := h
  constructor
  · intro hr; subst hr; simp at htail
  · intro hr; subst hr
    have := congrArg List.length htail
    simp at this

theorem trace_header {ν : Type} (rt : Runtime ν) (m r : String) (params : List String)
    (hh : m ≠ "help") (hh2 : m ≠ "--help") :
    (processCommand rt (m :: r :: params)).trace =
      commandHeader (some m) (some r) params ++
        (processCommand rt (m :: r :: params)).trace.drop 6 := by
  simp [processCommand, hh, hh2, commandHeader]

theorem tail_congr {ν : Type} (rt : Runtime ν) (m m' r : String) (params : List String)
    (hm : m ≠ "") (hh : m ≠ "help") (hh2 : m ≠ "--help")
    (hm' : m' ≠ "") (hh' : m' ≠ "help") (hh2' : m' ≠ "--help")
    (hcase : rt.toUpperCase m' = rt.toUpperCase m)
    (hvalid : rt.toUpperCase m = "GET" ∨ rt.toUpperCase m = "POST" ∨
      rt.toUpperCase m = "DELETE") :
    (processCommand rt (m' :: r :: params)).trace.drop 6 =
      (processCommand rt (m :: r :: params)).trace.drop 6 := by
  rcases hvalid with h | h | h <;>
    simp [processCommand, hm, hh, hh2, hm', hh', hh2', hcase, h, truthyOpt, callToUpperCase]

theorem invalid_method_trace {ν : Type} (rt : Runtime ν) (m r : String) (params : List String)
    (hm : m ≠ "") (hr : r ≠ "") (hh : m ≠ "help") (hh2 : m ≠ "--help")
    (hG : rt.toUpperCase m ≠ "GET") (hP : rt.toUpperCase m ≠ "POST")
    (hD : rt.toUpperCase m ≠ "DELETE") :
    (processCommand rt (m :: r :: params)).trace =
      commandHeader (some m) (some r) params ++
        .error [.text ("❌ Error: Método \"" ++ m ++ "\" no válido")] ::
          .log [.text "💡 Métodos disponibles: GET, POST, DELETE"] ::
            (showHelp : Eff ν Unit).trace := by
  simp [processCommand, hm, hr, hh, hh2, hG, hP, hD, truthyOpt, callToUpperCase, commandHeader,
    showOpt]

theorem result_getAllProducts {ν : Type} (rt : Runtime ν) :
    (getAllProducts rt).result = .ok () :=
  tryCatch_result _ _ (fun _ => rfl)

theorem result_getProductById {ν : Type} (rt : Runtime ν) (productId : Option String) :
    (getProductById rt productId).result = .ok () :=
  tryCatch_result _ _ (fun _ => rfl)

theorem result_createProduct {ν : Type} (rt : Runtime ν) (title price category : Option String) :
    (createProduct rt title price category).result = .ok () :=
  tryCatch_result _ _ (fun _ => rfl)

theorem result_deleteProduct {ν : Type} (rt : Runtime ν) (productId : Option String) :
    (deleteProduct rt productId).result = .ok () :=
  tryCatch_result _ _ (fun _ => rfl)

theorem result_showHelp {ν : Type} : (showHelp : Eff ν Unit).result = .ok () := rfl

theorem processCommand_safe {ν : Type} (rt : Runtime ν) (args : List String) :
    (processCommand rt args).result = .ok () ∧
      (requestsOf (processCommand rt args).trace).length ≤ 1 := by
  rcases args with _ | ⟨m, _ | ⟨r, params⟩⟩
  · simp [processCommand, requestsOf_showHelp, result_showHelp]
  · by_cases hh : m = "help"
    · simp [processCommand, hh, requestsOf_showHelp, result_showHelp]
    · by_cases hh2 : m = "--help"
      · simp [processCommand, hh2, requestsOf_showHelp, result_showHelp]
      · simp [processCommand, hh, hh2, truthyOpt, requestsOf, requestsOf_showHelp, result_showHelp]
  · by_cases hh : m = "help"
    · simp [processCommand, hh, requestsOf_showHelp, result_showHelp]
    · by_cases hh2 : m = "--help"
      · simp [processCommand, hh2, requestsOf_showHelp, result_showHelp]
      · by_cases hm : m = ""
        · simp [processCommand, hm, truthyOpt, requestsOf, result_showHelp,
            requestsOf_showHelp]
        · by_cases hr : r = ""
          · simp [processCommand, hh, hh2, hm, hr, truthyOpt, requestsOf, result_showHelp,
              requestsOf_showHelp]
          · simp only [processCommand, hh, hh2, hm, hr, truthyOpt, callToUpperCase,
              callStartsWith, callSplit, bind_eq_andThen, andThen_consoleLog,
              andThen_consoleError, andThen_ret, pure_eq_ret]
            simp
            split_ifs <;>
              simp [requestsOf, requestsOf_showHelp, requestsOf_getAllProducts,
                requestsOf_getProductById, requestsOf_createProduct, requestsOf_deleteProduct,
                result_getAllProducts, result_getProductById, result_createProduct,
                result_deleteProduct, result_showHelp]

/-! ## Rendering lemmas -/

theorem toStr_of_printable {ν : Type} (rt : Runtime ν) (v : JSValue ν)
    (h : printable rt v = true) : toStr rt v = .ok (display rt v) := by
  unfold printable at h
  unfold display
  cases hv : toStr rt v with
  | ok s => rfl
  | error e => simp [hv] at h

theorem getProp_of_not_nullish {ν : Type} (v : JSValue ν) (key : String)
    (h : nullish v = false) : getProp v key = .ok (field v key) := by
  cases v <;> simp [nullish] at h <;> simp [getProp, field]

theorem showProp_ok {ν : Type} (rt : Runtime ν) (v : JSValue ν) (key : String)
    (h : nullish v = false) (hp : printable rt (field v key) = true) :
    showProp rt v key = ⟨[], .ok (display rt (field v key))⟩ := by
  simp [showProp, getProp_of_not_nullish v key h, toStr_of_printable rt _ hp, Eff.ofExcept,
    bind, Except.bind]

theorem showProp2_ok {ν : Type} (rt : Runtime ν) (v : JSValue ν) (key1 key2 : String)
    (h : nullish v = false) (h2 : nullish (field v key1) = false)
    (hp : printable rt (field (field v key1) key2) = true) :
    showProp2 rt v key1 key2 = ⟨[], .ok (display rt (field (field v key1) key2))⟩ := by
  simp [showProp2, getProp_of_not_nullish v key1 h, getProp_of_not_nullish _ key2 h2,
    toStr_of_printable rt _ hp, Eff.ofExcept, bind, Except.bind]

theorem andThen_mk_ok {ν α β : Type} (a : α) (f : α → Eff ν β) :
    Eff.andThen (⟨[], .ok a⟩ : Eff ν α) f = f a := rfl

theorem productBlock_of_renderable {ν : Type} (rt : Runtime ν) (product : JSValue ν)
    (h : renderable rt product = true) :
    productBlock rt product = ⟨blockLines rt product, .ok ()⟩ := by
  simp only [renderable, Bool.and_eq_true, Bool.not_eq_true'] at h
  obtain ⟨⟨⟨⟨⟨⟨⟨h0, hr⟩, h1⟩, h2⟩, h3⟩, h4⟩, h5⟩, h6⟩ := h
  simp only [productBlock, bind_eq_andThen, showProp_ok rt product _ h0 h1,
    showProp_ok rt product _ h0 h2, showProp_ok rt product _ h0 h3,
    showProp_ok rt product _ h0 h4, showProp2_ok rt product _ _ h0 hr h5,
    showProp2_ok rt product _ _ h0 hr h6, andThen_mk_ok, andThen_consoleLog, blockLines]
  rfl

theorem shown_ok {ν : Type} (rt : Runtime ν) (v : JSValue ν) (key s : String)
    (h : (getProp v key >>= toStr rt) = .ok s) :
    nullish v = false ∧ printable rt (field v key) = true := by
  cases hv : nullish v with
  | true => cases v <;> simp [nullish] at hv <;> simp [getProp, bind, Except.bind] at h
  | false =>
    rw [getProp_of_not_nullish v key hv] at h
    have h' : toStr rt (field v key) = .ok s := h
    simp [printable, h']

theorem shown2_ok {ν : Type} (rt : Runtime ν) (v : JSValue ν) (key1 key2 s : String)
    (h : (getProp v key1 >>= fun w => getProp w key2 >>= toStr rt) = .ok s) :
    nullish (field v key1) = false ∧ printable rt (field (field v key1) key2) = true := by
  cases hv : nullish v with
  | true => cases v <;> simp [nullish] at hv <;> simp [getProp, bind, Except.bind] at h
  | false =>
    rw [getProp_of_not_nullish v key1 hv] at h
    exact shown_ok rt (field v key1) key2 s h

theorem productBlock_fails {ν : Type} (rt : Runtime ν) (product : JSValue ν)
    (h : renderable rt product = false) :
    ∃ e, (productBlock rt product).result = .error e := by
  unfold productBlock showProp showProp2 Eff.ofExcept
  simp only [bind_eq_andThen]
  cases h1 : (getProp product "id" >>= toStr rt) with
  | error e => exact ⟨e, by simp only [Eff.andThen, h1]⟩
  | ok s1 =>
  cases h2 : (getProp product "title" >>= toStr rt) with
  | error e => exact ⟨e, by simp only [Eff.andThen, h1, h2, consoleLog]⟩
  | ok s2 =>
  cases h3 : (getProp product "price" >>= toStr rt) with
  | error e => exact ⟨e, by simp only [Eff.andThen, h1, h2, h3, consoleLog]⟩
  | ok s3 =>
  cases h4 : (getProp product "category" >>= toStr rt) with
  | error e => exact ⟨e, by simp only [Eff.andThen, h1, h2, h3, h4, consoleLog]⟩
  | ok s4 =>
  cases h5 : (getProp product "rating" >>= fun w => getProp w "rate" >>= toStr rt) with
  | error e => exact ⟨e, by simp only [Eff.andThen, h1, h2, h3, h4, h5, consoleLog]⟩
  | ok s5 =>
  cases h6 : (getProp product "rating" >>= fun w => getProp w "count" >>= toStr rt) with
  | error e => exact ⟨e, by simp only [Eff.andThen, h1, h2, h3, h4, h5, h6, consoleLog]⟩
  | ok s6 =>
    exfalso
    have a1 := shown_ok rt product _ _ h1
    have a2 := shown_ok rt product _ _ h2
    have a3 := shown_ok rt product _ _ h3
    have a4 := shown_ok rt product _ _ h4
    have a5 := shown2_ok rt product _ _ _ h5
    have a6 := shown2_ok rt product _ _ _ h6
    simp [renderable, a1.1, a1.2, a2.2, a3.2, a4.2, a5.1, a5.2, a6.2] at h

theorem forEach_renderable {ν : Type} (rt : Runtime ν) (xs : List (JSValue ν))
    (h : ∀ x ∈ xs, renderable rt x = true) :
    forEach (productBlock rt) xs = ⟨xs.flatMap (blockLines rt), .ok ()⟩ := by
  induction xs with
  | nil => rfl
  | cons x xs ih =>
    have hx := productBlock_of_renderable rt x (h x (by simp))
    have hxs := ih (fun y hy => h y (by simp [hy]))
    simp [forEach, hx, hxs, Eff.andThen]

theorem forEach_stops {ν : Type} (rt : Runtime ν) (good : List (JSValue ν)) (bad : JSValue ν)
    (rest : List (JSValue ν)) (e : JSError)
    (h : ∀ x ∈ good, renderable rt x = true)
    (hbad : (productBlock rt bad).result = .error e) :
    forEach (productBlock rt) (good ++ bad :: rest) =
      ⟨good.flatMap (blockLines rt) ++ (productBlock rt bad).trace, .error e⟩ := by
  induction good with
  | nil => simp [forEach, Eff.andThen, hbad]
  | cons x xs ih =>
    have hx := productBlock_of_renderable rt x (h x (by simp))
    have hxs := ih (fun y hy => h y (by simp [hy]))
    simp [forEach, hx, hxs, Eff.andThen]

theorem makeApiRequest_ok {ν : Type} (rt : Runtime ν) (url : String)
    (status : Nat) (statusText : String) (data : JSValue ν)
    (h : rt.fetch (getRequest url) = .response true status statusText (.ok data)) :
    makeApiRequest rt url none none =
      ⟨[.log [.text ("🔄 Realizando petición: GET " ++ url)], .fetch (getRequest url)],
        .ok data⟩ := by
  unfold getRequest at h
  simp [makeApiRequest, Eff.tryCatch, Eff.andThen, h, Eff.ret, consoleLog, getRequest]

/-! ## The claims -/

/-- Claim C1, evaluated at `POST products T-Shirt Rex Blue 300 remeras`: with five
params the call made is `createProduct('T-Shirt', '300', 'remeras')`, and the
body of the single request carries the title `T-Shirt`; the tokens `Rex` and
`Blue` are dropped. -/
theorem post_five_params_title (world : Request → FetchOutcome (Option Nat)) :
    (processCommand (sampleRuntime world)
        ["POST", "products", "T-Shirt", "Rex", "Blue", "300", "remeras"]).trace =
      commandHeader (some "POST") (some "products")
          ["T-Shirt", "Rex", "Blue", "300", "remeras"] ++
        (createProduct (sampleRuntime world) (some "T-Shirt") (some "300")
          (some "remeras")).trace ∧
    requestsOf (processCommand (sampleRuntime world)
        ["POST", "products", "T-Shirt", "Rex", "Blue", "300", "remeras"]).trace =
      [⟨"POST", "https://fakestoreapi.com/products", [("Content-Type", "application/json")],
        some ("\x7b\"title\":\"T-Shirt\",\"price\":300," ++
          "\"description\":\"Producto T-Shirt de la categoría remeras\"," ++
          "\"category\":\"remeras\"\x7d")⟩] := by
  have h0 : (processCommand (sampleRuntime world)
        ["POST", "products", "T-Shirt", "Rex", "Blue", "300", "remeras"]).trace =
      commandHeader (some "POST") (some "products")
          ["T-Shirt", "Rex", "Blue", "300", "remeras"] ++
        (createProduct (sampleRuntime world) (some "T-Shirt") (some "300")
          (some "remeras")).trace := rfl
  refine ⟨h0, ?_⟩
  rw [h0, requestsOf_append, requestsOf_createProduct]; rfl

/-- Claim C2, evaluated at `POST products T-Shirt Rex 300 remeras`: with four
params the call made is `createProduct('T-Shirt', undefined, 'remeras')`; the
price is `undefined`, not `300`, so the number put into `newProduct` is
`parseFloat(undefined)`, which is `NaN`, and the body of the single request
carries the price `null`. -/
theorem post_four_params_price (world : Request → FetchOutcome (Option Nat)) :
    (processCommand (sampleRuntime world)
        ["POST", "products", "T-Shirt", "Rex", "300", "remeras"]).trace =
      commandHeader (some "POST") (some "products") ["T-Shirt", "Rex", "300", "remeras"] ++
        (createProduct (sampleRuntime world) (some "T-Shirt") none (some "remeras")).trace ∧
    requestsOf (processCommand (sampleRuntime world)
        ["POST", "products", "T-Shirt", "Rex", "300", "remeras"]).trace =
      [⟨"POST", "https://fakestoreapi.com/products", [("Content-Type", "application/json")],
        some ("\x7b\"title\":\"T-Shirt\",\"price\":null," ++
          "\"description\":\"Producto T-Shirt de la categoría remeras\"," ++
          "\"category\":\"remeras\"\x7d")⟩] := by
  have h0 : (processCommand (sampleRuntime world)
        ["POST", "products", "T-Shirt", "Rex", "300", "remeras"]).trace =
      commandHeader (some "POST") (some "products") ["T-Shirt", "Rex", "300", "remeras"] ++
        (createProduct (sampleRuntime world) (some "T-Shirt") none (some "remeras")).trace :=
    rfl
  refine ⟨h0, ?_⟩
  rw [h0, requestsOf_append, requestsOf_createProduct]; rfl

/-- Claim C3 as stated fails: for `POST products Mochila abc bolsos` the numeric
parse of the price `abc` is `NaN`, which is not finite, and the body of the
single request carries the price `null`, not that number. -/
theorem post_body_price_null_on_nan :
    (sampleRuntime offline).parseFloat "abc" = none ∧
    (sampleRuntime offline).numFinite ((sampleRuntime offline).parseFloat "abc") = false ∧
    requestsOf (processCommand (sampleRuntime offline)
        ["POST", "products", "Mochila", "abc", "bolsos"]).trace =
      [⟨"POST", "https://fakestoreapi.com/products", [("Content-Type", "application/json")],
        some ("\x7b\"title\":\"Mochila\",\"price\":null," ++
          "\"description\":\"Producto Mochila de la categoría bolsos\"," ++
          "\"category\":\"bolsos\"\x7d")⟩] := by
  refine ⟨by decide, by decide, ?_⟩
  have h0 : (processCommand (sampleRuntime offline)
        ["POST", "products", "Mochila", "abc", "bolsos"]).trace =
      commandHeader (some "POST") (some "products") ["Mochila", "abc", "bolsos"] ++
        (createProduct (sampleRuntime offline) (some "Mochila") (some "abc")
          (some "bolsos")).trace := rfl
  rw [h0, requestsOf_append, requestsOf_createProduct]; decide

/-- Claim C3, amended: for a method that upper-cases to `POST`, resource
`products` and exactly three params `t`, `p`, `c`, the command runs
`createProduct(t, p, c)` and issues exactly one request: `POST <base>/products`
whose body is the JSON text of an object with `title` the string `t`, `price`
the number `parseFloat(p)` when that number is finite and `null` when it is
not, `description` the string `Producto t de la categoría c`, and `category`
the string `c`, in this order. -/
theorem post_three_params_request {ν : Type} (rt : Runtime ν) (m t p c : String)
    (hup : rt.toUpperCase m = "POST") :
    (processCommand rt [m, "products", t, p, c]).trace =
      commandHeader (some m) (some "products") [t, p, c] ++
        (createProduct rt (some t) (some p) (some c)).trace ∧
    requestsOf (processCommand rt [m, "products", t, p, c]).trace =
      [⟨"POST", API_BASE_URL ++ "/products", [("Content-Type", "application/json")],
        some ("\x7b\"title\":" ++ quote t ++ ",\"price\":" ++
          (if rt.numFinite (rt.parseFloat p) then rt.numToString (rt.parseFloat p)
           else "null") ++
          ",\"description\":" ++ quote ("Producto " ++ t ++ " de la categoría " ++ c) ++
          ",\"category\":" ++ quote c ++ "\x7d")⟩] := by
  obtain ⟨hne, hh, hh2⟩ := method_ne rt m "POST" hup (by decide) (by decide) (by decide)
  have h0 : (processCommand rt [m, "products", t, p, c]).trace =
      commandHeader (some m) (some "products") [t, p, c] ++
        (createProduct rt (some t) (some p) (some c)).trace := by
    simp [processCommand, hne, hh, hh2, truthyOpt, callToUpperCase, hup, commandHeader, index]
  refine ⟨h0, ?_⟩
  rw [h0, requestsOf_append, requestsOf_createProduct, stringify_newProduct, newProduct_text]
  rfl

/-- Witness of `post_three_params_request` at `post products Mochila 2999 bolsos`. -/
theorem post_three_params_request_witness :
    (sampleRuntime offline).toUpperCase "post" = "POST" ∧
    requestsOf (processCommand (sampleRuntime offline)
        ["post", "products", "Mochila", "2999", "bolsos"]).trace =
      [⟨"POST", "https://fakestoreapi.com/products", [("Content-Type", "application/json")],
        some ("\x7b\"title\":\"Mochila\",\"price\":2999," ++
          "\"description\":\"Producto Mochila de la categoría bolsos\"," ++
          "\"category\":\"bolsos\"\x7d")⟩] :=
  ⟨by decide,
   (post_three_params_request (sampleRuntime offline) "post" "Mochila" "2999" "bolsos"
      (by decide)).2⟩

/-- Claim C4: for a method that upper-cases to `GET` and the resource
`products`: with no param the command runs `getAllProducts()` and the single
request is `GET <base>/products`; with exactly one param `x` it runs
`getProductById(x)` and the single request is `GET <base>/products/x`; with
two or more params it prints the error line and the help text and issues no
request. -/
theorem get_products_dispatch {ν : Type} (rt : Runtime ν) (m : String)
    (hup : rt.toUpperCase m = "GET") :
    ((processCommand rt [m, "products"]).trace =
        commandHeader (some m) (some "products") [] ++ (getAllProducts rt).trace ∧
      requestsOf (processCommand rt [m, "products"]).trace =
        [getRequest (API_BASE_URL ++ "/products")]) ∧
    (∀ x : String,
      (processCommand rt [m, "products", x]).trace =
        commandHeader (some m) (some "products") [x] ++ (getProductById rt (some x)).trace ∧
      requestsOf (processCommand rt [m, "products", x]).trace =
        [getRequest (API_BASE_URL ++ "/products/" ++ x)]) ∧
    (∀ (x y : String) (rest : List String),
      (processCommand rt (m :: "products" :: x :: y :: rest)).trace =
        commandHeader (some m) (some "products") (x :: y :: rest) ++
          .error [.text "❌ Error: Parámetros incorrectos para GET products"] ::
            (showHelp : Eff ν Unit).trace ∧
      UsageError (processCommand rt (m :: "products" :: x :: y :: rest)).trace) := by
  obtain ⟨hne, hh, hh2⟩ := method_ne rt m "GET" hup (by decide) (by decide) (by decide)
  have h0 : (processCommand rt [m, "products"]).trace =
      commandHeader (some m) (some "products") [] ++ (getAllProducts rt).trace := by
    simp [processCommand, hne, hh, hh2, truthyOpt, callToUpperCase, hup, commandHeader]
  have h1 : ∀ x : String, (processCommand rt [m, "products", x]).trace =
      commandHeader (some m) (some "products") [x] ++ (getProductById rt (some x)).trace := by
    intro x
    simp [processCommand, hne, hh, hh2, truthyOpt, callToUpperCase, hup, commandHeader, index]
  have h2 : ∀ (x y : String) (rest : List String),
      (processCommand rt (m :: "products" :: x :: y :: rest)).trace =
        commandHeader (some m) (some "products") (x :: y :: rest) ++
          .error [.text "❌ Error: Parámetros incorrectos para GET products"] ::
            (showHelp : Eff ν Unit).trace := by
    intro x y rest
    simp [processCommand, hne, hh, hh2, truthyOpt, callToUpperCase, hup, commandHeader]
  refine ⟨⟨h0, ?_⟩, fun x => ⟨h1 x, ?_⟩, fun x y rest => ⟨h2 x y rest, ?_⟩⟩
  · rw [h0, requestsOf_append, requestsOf_getAllProducts]; rfl
  · rw [h1, requestsOf_append, requestsOf_getProductById]; rfl
  · rw [h2]; exact usageError_intro _ _ rfl

/-- Witness of `get_products_dispatch` at the method `Get`. -/
theorem get_products_dispatch_witness :
    (sampleRuntime offline).toUpperCase "Get" = "GET" ∧
    requestsOf (processCommand (sampleRuntime offline) ["Get", "products"]).trace =
      [getRequest "https://fakestoreapi.com/products"] ∧
    requestsOf (processCommand (sampleRuntime offline) ["Get", "products", "15"]).trace =
      [getRequest "https://fakestoreapi.com/products/15"] ∧
    UsageError (processCommand (sampleRuntime offline) ["Get", "products", "1", "2"]).trace :=
  ⟨by decide,
   (get_products_dispatch (sampleRuntime offline) "Get" (by decide)).1.2,
   ((get_products_dispatch (sampleRuntime offline) "Get" (by decide)).2.1 "15").2,
   ((get_products_dispatch (sampleRuntime offline) "Get" (by decide)).2.2 "1" "2" []).2⟩

/-- Claim C5 as stated fails: for `GET products/1/2` the request goes to
`<base>/products/1`, not to `<base>/products/1/2`. -/
theorem get_path_not_whole_suffix :
    startsWith "products/1/2" "products/" = true ∧
    (requestsOf (processCommand (sampleRuntime offline) ["GET", "products/1/2"]).trace).map
        (fun req => req.url) = ["https://fakestoreapi.com/products/1"] ∧
    (requestsOf (processCommand (sampleRuntime offline) ["GET", "products/1/2"]).trace).map
        (fun req => req.url) ≠ ["https://fakestoreapi.com/products/1/2"] := by
  decide

/-- Claim C5, amended: for a method that upper-cases to `GET` and a resource
that starts with `products/`, the id is the part of the resource after that
slash up to the next `/` (or the end).  When it is non-empty the command runs
`getProductById(id)` and the single request is `GET <base>/products/<id>`;
when it is empty the command prints the error line and the help text and
issues no request. -/
theorem get_path_first_segment {ν : Type} (rt : Runtime ν) (m r : String)
    (params : List String) (hup : rt.toUpperCase m = "GET")
    (hr : startsWith r "products/" = true) :
    (idSegment r ≠ "" →
      (processCommand rt (m :: r :: params)).trace =
        commandHeader (some m) (some r) params ++
          (getProductById rt (some (idSegment r))).trace ∧
      requestsOf (processCommand rt (m :: r :: params)).trace =
        [getRequest (API_BASE_URL ++ "/products/" ++ idSegment r)]) ∧
    (idSegment r = "" →
      (processCommand rt (m :: r :: params)).trace =
        commandHeader (some m) (some r) params ++
          .error [.text "❌ Error: Debes especificar el ID del producto"] ::
            (showHelp : Eff ν Unit).trace ∧
      UsageError (processCommand rt (m :: r :: params)).trace) := by
  obtain ⟨hne, hh, hh2⟩ := method_ne rt m "GET" hup (by decide) (by decide) (by decide)
  obtain ⟨hr0, hr1⟩ := path_ne r hr
  constructor
  · intro hid
    have h0 : (processCommand rt (m :: r :: params)).trace =
        commandHeader (some m) (some r) params ++
          (getProductById rt (some (idSegment r))).trace := by
      simp [processCommand, hne, hh, hh2, truthyOpt, callToUpperCase, hup, commandHeader,
        hr0, hr1, callStartsWith, callSplit, hr, index_split r hr, hid]
    refine ⟨h0, ?_⟩
    rw [h0, requestsOf_append, requestsOf_getProductById]; rfl
  · intro hid
    have h0 : (processCommand rt (m :: r :: params)).trace =
        commandHeader (some m) (some r) params ++
          .error [.text "❌ Error: Debes especificar el ID del producto"] ::
            (showHelp : Eff ν Unit).trace := by
      simp [processCommand, hne, hh, hh2, truthyOpt, callToUpperCase, hup, commandHeader,
        hr0, hr1, callStartsWith, callSplit, hr, index_split r hr, hid]
    refine ⟨h0, ?_⟩
    rw [h0]; exact usageError_intro _ _ rfl

/-- Witness of `get_path_first_segment` at `get products/42` and `get products/`. -/
theorem get_path_first_segment_witness :
    (sampleRuntime offline).toUpperCase "get" = "GET" ∧
    startsWith "products/42" "products/" = true ∧
    startsWith "products/" "products/" = true ∧
    requestsOf (processCommand (sampleRuntime offline) ["get", "products/42"]).trace =
      [getRequest "https://fakestoreapi.com/products/42"] ∧
    UsageError (processCommand (sampleRuntime offline) ["get", "products/"]).trace :=
  ⟨by decide, by decide, by decide,
   ((get_path_first_segment (sampleRuntime offline) "get" "products/42" [] (by decide)
      (by decide)).1 (by decide)).2,
   ((get_path_first_segment (sampleRuntime offline) "get" "products/" [] (by decide)
      (by decide)).2 (by decide)).2⟩

/-- Claim C6 as stated fails: `DELETE products//7` starts with `products/` and
has the non-empty suffix `/7`, yet no request is issued; and for
`DELETE products/7/8` the request goes to `<base>/products/7`, not to
`<base>/products/7/8`. -/
theorem delete_not_whole_suffix :
    startsWith "products//7" "products/" = true ∧
    (⟨"products//7".data.drop 9⟩ : String) = "/7" ∧
    (requestsOf (processCommand (sampleRuntime offline) ["DELETE", "products//7"]).trace).map
        (fun req => req.url) = [] ∧
    (requestsOf (processCommand (sampleRuntime offline) ["DELETE", "products/7/8"]).trace).map
        (fun req => req.url) = ["https://fakestoreapi.com/products/7"] := by
  decide

/-- Claim C6, amended: for a method that upper-cases to `DELETE` and a resource
`r`, a request is issued exactly when `r` starts with `products/` and the part
of `r` after that slash up to the next `/` (or the end) is non-empty; it is
then the single request `DELETE <base>/products/<that part>`, made by
`deleteProduct`.  In every other case the command prints an error line and
the help text and issues no request. -/
theorem delete_first_segment {ν : Type} (rt : Runtime ν) (m r : String)
    (params : List String) (hup : rt.toUpperCase m = "DELETE") :
    (startsWith r "products/" = true ∧ idSegment r ≠ "" →
      (processCommand rt (m :: r :: params)).trace =
        commandHeader (some m) (some r) params ++
          (deleteProduct rt (some (idSegment r))).trace ∧
      requestsOf (processCommand rt (m :: r :: params)).trace =
        [deleteRequest (API_BASE_URL ++ "/products/" ++ idSegment r)]) ∧
    (¬ (startsWith r "products/" = true ∧ idSegment r ≠ "") →
      UsageError (processCommand rt (m :: r :: params)).trace) := by
  obtain ⟨hne, hh, hh2⟩ := method_ne rt m "DELETE" hup (by decide) (by decide) (by decide)
  constructor
  · rintro ⟨hr, hid⟩
    obtain ⟨hr0, _⟩ := path_ne r hr
    have h0 : (processCommand rt (m :: r :: params)).trace =
        commandHeader (some m) (some r) params ++
          (deleteProduct rt (some (idSegment r))).trace := by
      simp [processCommand, hne, hh, hh2, truthyOpt, callToUpperCase, hup, commandHeader,
        hr0, callStartsWith, callSplit, hr, index_split r hr, hid]
    refine ⟨h0, ?_⟩
    rw [h0, requestsOf_append, requestsOf_deleteProduct]; rfl
  · intro hnot
    by_cases hr0 : r = ""
    · have h0 : (processCommand rt (m :: r :: params)).trace =
          commandHeader (some m) (some r) params ++
            .error [.text "❌ Error: Debes especificar un método y recurso"] ::
              (showHelp : Eff ν Unit).trace := by
        simp [processCommand, hne, hh, hh2, truthyOpt, commandHeader, hr0]
      rw [h0]; exact usageError_intro _ _ rfl
    · by_cases hr : startsWith r "products/" = true
      · have hid : idSegment r = "" := by
          by_contra hid; exact hnot ⟨hr, hid⟩
        have h0 : (processCommand rt (m :: r :: params)).trace =
            commandHeader (some m) (some r) params ++
              .error [.text "❌ Error: Debes especificar el ID del producto a eliminar"] ::
                (showHelp : Eff ν Unit).trace := by
          simp [processCommand, hne, hh, hh2, truthyOpt, callToUpperCase, hup, commandHeader,
            hr0, callStartsWith, callSplit, hr, index_split r hr, hid]
        rw [h0]; exact usageError_intro _ _ rfl
      · have h0 : (processCommand rt (m :: r :: params)).trace =
            commandHeader (some m) (some r) params ++
              .error [.text "❌ Error: Formato incorrecto. Use DELETE products/<id>"] ::
                (showHelp : Eff ν Unit).trace := by
          simp [processCommand, hne, hh, hh2, truthyOpt, callToUpperCase, hup, commandHeader,
            hr0, callStartsWith, hr]
        rw [h0]; exact usageError_intro _ _ rfl

/-- Witness of `delete_first_segment` at `delete products/7` and `delete products`. -/
theorem delete_first_segment_witness :
    (sampleRuntime offline).toUpperCase "delete" = "DELETE" ∧
    requestsOf (processCommand (sampleRuntime offline) ["delete", "products/7"]).trace =
      [deleteRequest "https://fakestoreapi.com/products/7"] ∧
    UsageError (processCommand (sampleRuntime offline) ["delete", "products"]).trace :=
  ⟨by decide,
   ((delete_first_segment (sampleRuntime offline) "delete" "products/7" [] (by decide)).1
      ⟨by decide, by decide⟩).2,
   (delete_first_segment (sampleRuntime offline) "delete" "products" [] (by decide)).2
      (by decide)⟩

/-- Claim C7 as stated fails: `HELP` is neither `help` nor `--help` and `help`
is another letter-casing of it, yet `HELP products` ends in a usage error
while `help products` prints the help text without any error line. -/
theorem method_casing_help_differs :
    ("HELP" ≠ "help" ∧ "HELP" ≠ "--help" ∧ "HELP" ≠ "" ∧ "products" ≠ "") ∧
    (sampleRuntime offline).toUpperCase "help" = (sampleRuntime offline).toUpperCase "HELP" ∧
    UsageError (processCommand (sampleRuntime offline) ["HELP", "products"]).trace ∧
    ¬ UsageError (processCommand (sampleRuntime offline) ["help", "products"]).trace := by
  refine ⟨by decide, by decide, ?_, ?_⟩
  · rw [invalid_method_trace (sampleRuntime offline) "HELP" "products" [] (by decide)
      (by decide) (by decide) (by decide) (by decide) (by decide) (by decide)]
    exact usageError_intro_hint _ _ _ rfl
  · have hp : processCommand (sampleRuntime offline) ["help", "products"] = showHelp := by
      simp [processCommand]
    rw [hp]
    exact not_usageError_showHelp

/-- Claim C7, amended: for an argument list `m r params` with `m` and `r`
non-empty and `m` not `help` or `--help`, and any `m'` with the same
upper-casing as `m` that is itself not `help` or `--help`, the two lists have
the same dispatch outcome: the same requests, and a usage error for one
exactly when for the other.  When `m` upper-cases to none of `GET`, `POST`,
`DELETE`, the command prints the error line quoting `m` as given, then the
line listing `GET, POST, DELETE`, then the help text, and issues no request. -/
theorem method_case_insensitive {ν : Type} (rt : Runtime ν) (m m' r : String)
    (params : List String) (hm : m ≠ "") (hr : r ≠ "") (hh : m ≠ "help")
    (hh2 : m ≠ "--help") (hh' : m' ≠ "help") (hh2' : m' ≠ "--help")
    (hcase : rt.toUpperCase m' = rt.toUpperCase m) :
    (requestsOf (processCommand rt (m' :: r :: params)).trace =
        requestsOf (processCommand rt (m :: r :: params)).trace ∧
      (UsageError (processCommand rt (m' :: r :: params)).trace ↔
        UsageError (processCommand rt (m :: r :: params)).trace)) ∧
    (rt.toUpperCase m ≠ "GET" → rt.toUpperCase m ≠ "POST" → rt.toUpperCase m ≠ "DELETE" →
      (processCommand rt (m :: r :: params)).trace =
        commandHeader (some m) (some r) params ++
          .error [.text ("❌ Error: Método \"" ++ m ++ "\" no válido")] ::
            .log [.text "💡 Métodos disponibles: GET, POST, DELETE"] ::
              (showHelp : Eff ν Unit).trace ∧
      UsageError (processCommand rt (m :: r :: params)).trace) := by
  have hm' : m' ≠ "" := by
    intro h
    have h1 : rt.toUpperCase m = "" := by rw [← hcase, h]; exact (rt.upper_eq_empty "").2 rfl
    exact hm ((rt.upper_eq_empty m).1 h1)
  have hinv : ∀ x : String, x ≠ "" → x ≠ "help" → x ≠ "--help" →
      rt.toUpperCase x ≠ "GET" → rt.toUpperCase x ≠ "POST" → rt.toUpperCase x ≠ "DELETE" →
      UsageError (processCommand rt (x :: r :: params)).trace := by
    intro x hx h1 h2 hG hP hD
    rw [invalid_method_trace rt x r params hx hr h1 h2 hG hP hD]
    exact usageError_intro_hint _ _ _ rfl
  constructor
  · by_cases hvalid : rt.toUpperCase m = "GET" ∨ rt.toUpperCase m = "POST" ∨
        rt.toUpperCase m = "DELETE"
    · have ht := tail_congr rt m m' r params hm hh hh2 hm' hh' hh2' hcase hvalid
      rw [trace_header rt m r params hh hh2, trace_header rt m' r params hh' hh2', ht]
      constructor
      · simp [commandHeader, requestsOf]
      · rw [usageError_header, usageError_header]
    · simp only [not_or] at hvalid
      obtain ⟨hG, hP, hD⟩ := hvalid
      have h1 := hinv m hm hh hh2 hG hP hD
      have h2 := hinv m' hm' hh' hh2' (hcase ▸ hG) (hcase ▸ hP) (hcase ▸ hD)
      exact ⟨by rw [h1.1, h2.1], ⟨fun _ => h1, fun _ => h2⟩⟩
  · intro hG hP hD
    exact ⟨invalid_method_trace rt m r params hm hr hh hh2 hG hP hD,
      hinv m hm hh hh2 hG hP hD⟩

/-- Witness of `method_case_insensitive` at `get` and `GeT`, and at the
invalid method `PUT`. -/
theorem method_case_insensitive_witness :
    ("get" ≠ "" ∧ "products" ≠ "" ∧ "get" ≠ "help" ∧ "get" ≠ "--help" ∧ "GeT" ≠ "help" ∧
      "GeT" ≠ "--help" ∧
      (sampleRuntime offline).toUpperCase "GeT" = (sampleRuntime offline).toUpperCase "get") ∧
    requestsOf (processCommand (sampleRuntime offline) ["GeT", "products"]).trace =
      requestsOf (processCommand (sampleRuntime offline) ["get", "products"]).trace ∧
    UsageError (processCommand (sampleRuntime offline) ["PUT", "products"]).trace :=
  ⟨by decide,
   (method_case_insensitive (sampleRuntime offline) "get" "GeT" "products" [] (by decide)
      (by decide) (by decide) (by decide) (by decide) (by decide) (by decide)).1.1,
   ((method_case_insensitive (sampleRuntime offline) "PUT" "put" "products" [] (by decide)
      (by decide) (by decide) (by decide) (by decide) (by decide) (by decide)).2
      (by decide) (by decide) (by decide)).2⟩

/-- Claim C8: when the argument list is empty or its first argument is exactly
`help` or `--help`, `processCommand` prints the 22 lines of the help text and
nothing else, and returns; the whole run prints the three welcome lines, the
help text and the closing message, issues no request, prints no error line,
and ends with exit status 0. -/
theorem help_outcome {ν : Type} (rt : Runtime ν) (args : List String)
    (h : args = [] ∨ args.head? = some "help" ∨ args.head? = some "--help") :
    (processCommand rt args).trace =
      [.log [.text "\n🚀 TIENDA ONLINE CLI - AYUDA"],
       .log [.text "=================================================="],
       .log [.text "📖 Comandos disponibles:"],
       .log [.text ""],
       .log [.text "📦 Obtener todos los productos:"],
       .log [.text "   npm run start GET products"],
       .log [.text ""],
       .log [.text "🔍 Obtener un producto específico:"],
       .log [.text "   npm run start GET products/<productId>"],
       .log [.text "   Ejemplo: npm run start GET products/15"],
       .log [.text ""],
       .log [.text "➕ Crear un nuevo producto:"],
       .log [.text "   npm run start POST products <title> <price> <category>"],
       .log [.text "   Ejemplo: npm run start POST products T-Shirt-Rex 300 remeras"],
       .log [.text ""],
       .log [.text "🗑️  Eliminar un producto:"],
       .log [.text "   npm run start DELETE products/<productId>"],
       .log [.text "   Ejemplo: npm run start DELETE products/7"],
       .log [.text ""],
       .log [.text "❓ Mostrar esta ayuda:"],
       .log [.text "   npm run start help"],
       .log [.text "\n=================================================="]] ∧
    (processCommand rt args).result = .ok () ∧
    (main rt args).trace =
      [.log [.text "\n🌟 BIENVENIDO A TIENDA ONLINE CLI"],
       .log [.text "🛍️  Sistema de Gestión de Productos"],
       .log [.text "🔗 Conectado a FakeStore API"]] ++
        (processCommand rt args).trace ++
          [.log [.text "\n👋 ¡Gracias por usar Tienda Online CLI!"]] ∧
    requestsOf (main rt args).trace = [] ∧
    (∀ a, Event.error a ∉ (main rt args).trace) ∧
    (main rt args).exitCode = 0 := by
  have hp : processCommand rt args = showHelp := by
    unfold processCommand
    rcases h with h | h | h
    · subst h; simp
    · cases args with
      | nil => simp
      | cons a as => simp at h; subst h; simp
    · cases args with
      | nil => simp
      | cons a as => simp at h; subst h; simp
  have hmain : main rt args = ⟨welcome ++ (showHelp : Eff ν Unit).trace ++ [closing], 0⟩ := by
    simp [main, hp, showHelp]
  refine ⟨?_, ?_, ?_, ?_, ?_, ?_⟩
  · rw [hp]; rfl
  · rw [hp]; rfl
  · rw [hmain, hp]; rfl
  · rw [hmain]; rfl
  · rw [hmain]; intro a ha
    simp [welcome, showHelp, closing] at ha
  · rw [hmain]

/-- Witness of `help_outcome` at `help GET products`. -/
theorem help_outcome_witness :
    ((["help", "GET", "products"] : List String) = [] ∨
      (["help", "GET", "products"] : List String).head? = some "help" ∨
      (["help", "GET", "products"] : List String).head? = some "--help") ∧
    requestsOf (main (sampleRuntime offline) ["help", "GET", "products"]).trace = [] ∧
    (main (sampleRuntime offline) ["help", "GET", "products"]).exitCode = 0 :=
  ⟨Or.inr (Or.inl rfl),
   (help_outcome (sampleRuntime offline) ["help", "GET", "products"]
      (Or.inr (Or.inl rfl))).2.2.2.1,
   (help_outcome (sampleRuntime offline) ["help", "GET", "products"]
      (Or.inr (Or.inl rfl))).2.2.2.2.2⟩

/-- Claim C9: for every runtime (every outcome of the transport call) and every
argument list, no handler throws, `processCommand` does not throw, the run
issues at most one request, prints the closing message last, and ends with
exit status 0. -/
theorem run_never_fails {ν : Type} (rt : Runtime ν) (args : List String) :
    (getAllProducts rt).result = .ok () ∧
    (∀ productId, (getProductById rt productId).result = .ok ()) ∧
    (∀ title price category, (createProduct rt title price category).result = .ok ()) ∧
    (∀ productId, (deleteProduct rt productId).result = .ok ()) ∧
    (processCommand rt args).result = .ok () ∧
    (requestsOf (main rt args).trace).length ≤ 1 ∧
    (main rt args).trace = welcome ++ (processCommand rt args).trace ++ [closing] ∧
    (main rt args).exitCode = 0 := by
  obtain ⟨hres, hreq⟩ := processCommand_safe rt args
  have hmain : main rt args = ⟨welcome ++ (processCommand rt args).trace ++ [closing], 0⟩ := by
    simp [main, hres]
  refine ⟨result_getAllProducts rt, result_getProductById rt, result_createProduct rt,
    result_deleteProduct rt, hres, ?_, ?_, ?_⟩
  · rw [hmain]
    simpa [welcome, closing, requestsOf] using hreq
  · rw [hmain]
  · rw [hmain]

/-- Claim C10 as stated fails: for a list of two objects whose first element
has no `rating`, `getAllProducts` prints the header and four lines of the
first element, then the error line; the second element gets no block and no
total line is printed. -/
theorem list_stops_at_missing_rating :
    (getAllProducts (sampleRuntime listWorld)).trace =
      [.log [.text "🔄 Realizando petición: GET https://fakestoreapi.com/products"],
       .fetch (getRequest "https://fakestoreapi.com/products"),
       .log [.text "\n📦 LISTA COMPLETA DE PRODUCTOS"],
       .log [.text "=================================================="],
       .log [.text "\n🆔 ID: 1"],
       .log [.text "📝 Título: Mochila"],
       .log [.text "💰 Precio: $110"],
       .log [.text "🏷️  Categoría: bolsos"],
       .error [.text "❌ Error al obtener los productos:", .message (.readOfNullish "rate")]] ∧
    totalLine 2 ∉ (getAllProducts (sampleRuntime listWorld)).trace := by
  have h : (getAllProducts (sampleRuntime listWorld)).trace =
      [.log [.text "🔄 Realizando petición: GET https://fakestoreapi.com/products"],
       .fetch (getRequest "https://fakestoreapi.com/products"),
       .log [.text "\n📦 LISTA COMPLETA DE PRODUCTOS"],
       .log [.text "=================================================="],
       .log [.text "\n🆔 ID: 1"],
       .log [.text "📝 Título: Mochila"],
       .log [.text "💰 Precio: $110"],
       .log [.text "🏷️  Categoría: bolsos"],
       .error [.text "❌ Error al obtener los productos:", .message (.readOfNullish "rate")]] :=
    rfl
  refine ⟨h, ?_⟩
  rw [h]
  simp only [totalLine, List.mem_cons, Event.log.injEq, List.cons.injEq, Arg.text.injEq,
    and_true, List.mem_singleton, reduceCtorEq, List.not_mem_nil, or_false, false_or]
  decide

/-- Claim C10, amended: for a successful List response that is an array `xs`,
if every element is renderable (not `null`, with a `rating` that is neither
missing nor `null`, and with shown values that convert to strings), then
`getAllProducts` prints the list header, one six-line block per element in
response order, and the total line reporting the length of `xs` (for the
empty array: header and a total of 0).  A missing field of an object is shown
as `undefined`.  At the first element that is not renderable the rendering
stops: the blocks of the elements before it and the lines of its own block
printed so far are followed by the error line, and neither a later block nor
the total line is printed. -/
theorem list_rendering {ν : Type} (rt : Runtime ν) (xs : List (JSValue ν)) (status : Nat)
    (statusText : String)
    (hresp : rt.fetch (getRequest (API_BASE_URL ++ "/products")) =
      .response true status statusText (.ok (.array xs))) :
    ((∀ x ∈ xs, renderable rt x = true) →
      (getAllProducts rt).trace =
        listHeader ++ xs.flatMap (blockLines rt) ++ [totalLine xs.length]) ∧
    (∀ (fields : List (String × JSValue ν)) (key : String), fields.lookup key = none →
      display rt (field (.object fields) key) = "undefined") ∧
    (∀ (good rest : List (JSValue ν)) (bad : JSValue ν), xs = good ++ bad :: rest →
      (∀ x ∈ good, renderable rt x = true) → renderable rt bad = false →
      ∃ e, (productBlock rt bad).result = .error e ∧
        (getAllProducts rt).trace =
          listHeader ++ good.flatMap (blockLines rt) ++ (productBlock rt bad).trace ++
            [.error [.text "❌ Error al obtener los productos:", .message e]]) := by
  have hreq := makeApiRequest_ok rt _ status statusText _ hresp
  refine ⟨?_, ?_, ?_⟩
  · intro hall
    simp [getAllProducts, hreq, Eff.tryCatch, Eff.andThen, forEach_renderable rt xs hall,
      listHeader, totalLine, consoleLog]
  · intro fields key hkey
    simp [field, getProp, hkey, display, toStr]
  · intro good rest bad hxs hgood hbad
    obtain ⟨e, he⟩ := productBlock_fails rt bad hbad
    refine ⟨e, he, ?_⟩
    subst hxs
    simp [getAllProducts, hreq, Eff.tryCatch, Eff.andThen,
      forEach_stops rt good bad rest e hgood he, listHeader, consoleLog, consoleError]

/-- Witness of `list_rendering` at a response holding one complete product. -/
theorem list_rendering_witness :
    (sampleRuntime goodWorld).fetch (getRequest (API_BASE_URL ++ "/products")) =
      .response true 200 "OK" (.ok (.array goodList)) ∧
    (∀ x ∈ goodList, renderable (sampleRuntime goodWorld) x = true) ∧
    (getAllProducts (sampleRuntime goodWorld)).trace =
      [.log [.text "🔄 Realizando petición: GET https://fakestoreapi.com/products"],
       .fetch (getRequest "https://fakestoreapi.com/products"),
       .log [.text "\n📦 LISTA COMPLETA DE PRODUCTOS"],
       .log [.text "=================================================="],
       .log [.text "\n🆔 ID: 2"],
       .log [.text "📝 Título: Remera"],
       .log [.text "💰 Precio: $22"],
       .log [.text "🏷️  Categoría: ropa"],
       .log [.text "⭐ Rating: 4 (259 reseñas)"],
       .log [.text "----------------------------------------"],
       .log [.text "\n✅ Total de productos encontrados: 1"]] :=
  ⟨rfl, by decide,
   (list_rendering (sampleRuntime goodWorld) goodList 200 "OK" rfl).1 (by decide)⟩
end TiendaCLI
